import Mathlib

set_option maxRecDepth 10000

/-!
Verification of the qiskit-tutorials repository: a shallow embedding of its two
notebook files (the tutorial `01_getting_started_with_operators.ipynb` and the
unnamed duplicate) as sequences of cells, together with an exact-arithmetic
model of the demonstrated operator-flow semantics.
-/

/-- The type of a Jupyter notebook cell: markdown prose or executable code. -/
inductive CellType
  | markdown
  | code
deriving DecidableEq, Repr

/-- A notebook cell: its type together with its source, the exact list of
source lines as stored in the notebook JSON file. -/
structure Cell where
  cellType : CellType
  source : List String
deriving DecidableEq, Repr

def part000Cells : List Cell := [
  Cell.mk CellType.markdown [
    "# Getting started with operators\n",
    "\n",
    "Qiskit provides sophisticated functionality with operators: [The \"Operator Flow\" layer in Aqua](https://qiskit.org/documentation/apidoc/qiskit.aqua.operators.html). In this tutorial notebook we will get familiar with the main building blocks of the operator flow layer:\n",
    "\n",
    "1. State functions\n",
    "2. Operators and evolutions\n",
    "3. Measurements and expectations\n",
    "\n",
    "This tutorial assumes basic familiarty with qubits, quantum superposition and quantum circuits.\n",
    "\n",
    "There are a few important underlying mathematical concepts:\n",
    "\n",
    "* An n-qubit State function is a complex function over n binary variables, which we will often refer to as n-qubit binary strings. For example, the traditional quantum \u201czero state\u201d is a 1-qubit state function, with a definition of f(0) = 1 and f(1) = 0.\n",
    "* An n-qubit Operator is a linear function taking n-qubit state functions to n-qubit state functions. For example, the Pauli X Operator is defined by f(Zero) = One and f(One) = Zero. Equivalently, an Operator can be defined as a complex function over two n-qubit binary strings, and it is sometimes convenient to picture things this way. By this definition, our Pauli X can be defined by its typical matrix elements, f(0, 0) = 0, f(1, 0) = 1, f(0, 1) = 1, f(1, 1) = 0.\n",
    "* An n-qubit Measurement is a functional taking n-qubit State functions to complex values. For example, a Pauli Z Measurement can be defined by f(Zero) = 0 and f(One) = 1.\n",
    "\n",
    "The definitions of these concepts mostly follows the ones in the first two chapters of the book [\"The Theory of Quantum Information\" by John Watrous](https://cs.uwaterloo.ca/~watrous/TQI/), but don\x27t worry if you don\x27t get them at the first glance: This tutorial is all about getting intuition behind them and the structure of the operator flow layer."
  ],
  Cell.mk CellType.markdown [
    "First, let us import the necessary components:"
  ],
  Cell.mk CellType.code [
    "from qiskit.aqua.operators import *\n",
    "from qiskit import QuantumCircuit\n",
    "from qiskit.circuit import Parameter\n",
    "import numpy as np"
  ],
  Cell.mk CellType.markdown [
    "## State functions\n",
    "\n",
    "Let us start with a single qubit. As we know, a pure state of a qubit is, in general, described as a superposition of basis states $\\vert \\psi \\rangle = \\alpha \\vert 0\\rangle + \\beta \\vert 1 \\rangle$ with complex coefficients $\\alpha$ and $\\beta$. We can think of this superposition as some mathematical object which puts into correspondence the ket $\\vert 0\\rangle$ with $\\alpha$ and $\\vert 1\\rangle$ with $\\beta$. This is exactly what the state functions in Aqua are. For example the well known minus state $\\vert \\psi_\x7b-\x7d\\rangle=\\frac\x7b1\x7d\x7b\\sqrt\x7b2\x7d\x7d\\vert 0 \\rangle - \\frac\x7b1\x7d\x7b\\sqrt\x7b2\x7d\x7d\\vert 1\\rangle$ can be thought of as a function mapping the basis ket $\\vert 0\\rangle$ to $\\frac\x7b1\x7d\x7b\\sqrt\x7b2\x7d\x7d$ and the basis ket $\\vert 1\\rangle$ to $-\\frac\x7b1\x7d\x7b\\sqrt\x7b2\x7d\x7d$. Basis states themselves are particular cases of state sunctions, e.g. the basis state $\\vert 0\\rangle$ can be thought of as a function mapping the ket $\\vert 0\\rangle$ to the number $1$ and the ket $\\vert 1\\rangle$ to the number $0$.\n",
    "\n",
    "In Aqua, the class \x60StateFn\x60 can be used to create state functions. Let us create the 1-qubit state function corresponding to the state $\\vert \\psi_\x7b-\x7d\\rangle$"
  ],
  Cell.mk CellType.code [
    "amplitudes = [1, -1]\n",
    "normalization_coefficient = 1 / np.sqrt(2)\n",
    "psi_minus = StateFn(amplitudes, coeff=normalization_coefficient)"
  ],
  Cell.mk CellType.markdown [
    "To access the mapping represented by this state function we can use the function \x60.eval()\x60"
  ],
  Cell.mk CellType.code [
    "print(f\"The ket |0> is mapped to \x7bpsi_minus.eval(\x270\x27)\x7d\")\n",
    "print(f\"The ket |1> is mapped to \x7bpsi_minus.eval(\x271\x27)\x7d\")"
  ],
  Cell.mk CellType.markdown [
    "As you can see we have explicitly specified the normalization coefficient to keep the state normalized. Essentially the Aqua state functions can be thought of and treated as ket vectors, but keep in mind that they are a bit more general mathematical objects and do not impose normalization constraint. At the end of the day, when you create quantum circuits out of state functions and sample them the normalization will be taken care of internally, so you actually don\x27t need to explicitly specify the coefficient every time you create a state function (the default value is \x60coeff=1\x60)."
  ],
  Cell.mk CellType.markdown [
    "If we look at the type of the object \x60psi_minus\x60"
  ],
  Cell.mk CellType.code [
    "type(psi_minus)"
  ],
  Cell.mk CellType.markdown [
    "we can see that it is \x60VectorStateFn\x60. This is not much of a surprise, since we built the state function based on a vector of amplitudes. In how many ways can we create a state function? One way is obviously with a vector of complex amplitudes as done above. Another way is by specifying the mapping explicitly with a python dictionary"
  ],
  Cell.mk CellType.code [
    "mapping = \x7b\x270\x27: 1, \x271\x27: -1\x7d\n",
    "psi_minus_dict = StateFn(mapping, coeff=normalization_coefficient)\n",
    "type(psi_minus_dict)"
  ],
  Cell.mk CellType.markdown [
    "\x60DictStateFn\x60 objects provide an additional convenience where you can omit the zero amplitudes, e.g. the state $\\vert 1\\rangle$ can be initialized with \x60\x7b\x271\x27: 1\x7d\x60 instead of \x60\x7b\x270\x27: 0, \x271\x27: 1\x7d\x60.\n",
    "\n",
    "Yet another way to build a state function object is using a quantum circuit"
  ],
  Cell.mk CellType.code [
    "qc = QuantumCircuit(1)\n",
    "qc.h(0)\n",
    "qc.z(0)\n",
    "psi_minus_qc = StateFn(qc)\n",
    "type(psi_minus_qc)"
  ],
  Cell.mk CellType.markdown [
    "An object used to build a state function is called its _primitive_. The class \x60StateFn\x60 is a convenient way to create state function objects with various primitives, however the underlying classes \x60VectorStateFn\x60, \x60DictStateFn\x60, \x60CircuitStateFn\x60 etc. can be used directly as well, e.g. \x60DictStateFn(\x7b\x270\x27: 1, \x271\x27: -1\x7d)\x60. The full list of allowed primitives can be studied in the documentation. One important type of primitve is an Aqua operator, which we will cover briefly after we introduce operators and measurements."
  ],
  Cell.mk CellType.markdown [
    "To make the usage of state functions easier, Aqua provides the following frequently used state functions as pre-built objects\n",
    "\n",
    "* $\\vert 0 \\rangle \\rightarrow$ \x60Zero\x60\n",
    "* $\\vert 1 \\rangle \\rightarrow$ \x60One\x60\n",
    "* $\\frac\x7b1\x7d\x7b\\sqrt\x7b2\x7d\x7d (\\vert 0 \\rangle + \\vert 1 \\rangle) \\rightarrow$ \x60Plus\x60\n",
    "* $\\frac\x7b1\x7d\x7b\\sqrt\x7b2\x7d\x7d (\\vert 0 \\rangle - \\vert 1 \\rangle) \\rightarrow$ \x60Minus\x60\n",
    "\n",
    "E.g. if you need to use the minus state in your code, you can use \x60Minus\x60:"
  ],
  Cell.mk CellType.code [
    "print(f\"\x27Minus\x27 maps |0> to \x7bMinus.eval(\x270\x27)\x7d\")\n",
    "print(f\"\x27Minus\x27 maps |1> to \x7bMinus.eval(\x271\x27)\x7d\")"
  ],
  Cell.mk CellType.markdown [
    "Multi-qubit state function objects can be created in a manner identical to one-qubit state functions. As an example let us create a state function object for the 2-qubit Bell state $\\vert \\Phi^\x7b+\x7d \\rangle = \\frac\x7b1\x7d\x7b\\sqrt\x7b2\x7d\x7d(\\vert 00 \\rangle + \\vert 11 \\rangle)$"
  ],
  Cell.mk CellType.code [
    "primitive = \x7b\x2700\x27: 1, \x2711\x27: 1\x7d\n",
    "coeff = 1 / np.sqrt(2)\n",
    "bell = StateFn(primitive, coeff)\n",
    "\n",
    "for basis in [\x2700\x27, \x2701\x27, \x2710\x27, \x2711\x27]:\n",
    "    print(f\"\x27bell\x27 maps |\x7bbasis\x7d> to \x7bbell.eval(basis)\x7d\")"
  ],
  Cell.mk CellType.markdown [
    "As you know there are a lot of quantum states that can be described as tensor products of one-qubit states. The Bell state we have created above is not a such state, but e.g. the 2-qubit uniform superposition state $\\frac\x7b1\x7d\x7b2\x7d(\\vert 00 \\rangle + \\vert 01 \\rangle + \\vert 10 \\rangle + \\vert 11 \\rangle) = \\frac\x7b1\x7d\x7b\\sqrt\x7b2\x7d\x7d(\\vert 0 \\rangle + \\vert 1 \\rangle) \\otimes \\frac\x7b1\x7d\x7b\\sqrt\x7b2\x7d\x7d(\\vert 0 \\rangle + \\vert 1 \\rangle)$ is. Instead of specifying 2-qubit amplitudes to create a state function, as we did for the Bell state, we can use the tensoring capability of state functions to create the uniform superposition state. Tensoring of state functions can be done with the \x60.tensor()\x60 function (\x60Plus.tensor(Plus)\x60) or the \x60^\x60 symbol (\x60Plus ^ Plus\x60). Tensoring can be used also to do tensor powers, i.e. the second operand of tensoring can be an integer instead of a state function  and this will mean the tensor power of the first operand. E.g. let us create a uniform superposition state for five qubits"
  ],
  Cell.mk CellType.code [
    "uniform = Plus ^ 5\n",
    "uniform.primitive.draw()"
  ],
  Cell.mk CellType.markdown [
    "We have described the introductory basics of Aqua state functions above. Of course they support much more sophisticated functionality which is not covered in this notebook. A few honorable mentions are the functions \x60sample()\x60 and \x60to_matrix()\x60 which we encourage the readers to investigate on their own."
  ],
  Cell.mk CellType.markdown [
    "## Operators\n",
    "\n",
    "Now as we can build state functions we can define operations to transform them. Aqua operators do exactly this. Let us define an operator which takes the $\\vert - \\rangle$ state to the basis state $\\vert 1\\rangle$. As you know we could accomplish this with a Hadamard gate if we were building a quantum circuit. Let us define an operator based on such a quantum circuit"
  ],
  Cell.mk CellType.code [
    "qc_hadamard = QuantumCircuit(1)\n",
    "qc_hadamard.h(0)\n",
    "op_hadamard = CircuitOp(qc_hadamard)"
  ],
  Cell.mk CellType.markdown [
    "To make the operator \x60op_hadamard\x60 act on the state \x60Minus\x60 we need to chain them together. The official term for this in Aqua is _composition_. The symbol \x60@\x60 can be used to compose the operator with the state function, or the \x60.compose()\x60 function: they are equivalent"
  ],
  Cell.mk CellType.code [
    "(op_hadamard @ Minus).eval().sample()"
  ],
  Cell.mk CellType.code [
    "op_hadamard.compose(Minus).eval().sample()"
  ],
  Cell.mk CellType.markdown [
    "The state functions and operators have a similar interface. TODO: a few sentences about lazy composition, the type of the object created as a result of composition and the eval function...."
  ],
  Cell.mk CellType.markdown [
    "TODO: other ways to create operators (one important class - Puli operators)...\n",
    "\n",
    "TODO: standard operators in operator globals...."
  ],
  Cell.mk CellType.markdown [
    "## Evolutions\n",
    "\n",
    "TODO:\n",
    "\n",
    "TODO: building hamiltonians with operators (talk about SummedOp here as well)...."
  ],
  Cell.mk CellType.markdown [
    "## Measurements and Expectations\n",
    "\n",
    "TODO:"
  ],
  Cell.mk CellType.markdown [
    "## Example\n",
    "\n",
    "TODO: provide a simple end to end example of initializing some state, evolving it with some hamiltonian and measuring the expectation value of something (e.g. the hamiltonian itself)...."
  ]]

def tutorialCells : List Cell := [
  Cell.mk CellType.markdown [
    "# Getting started with operators\n",
    "\n",
    "Qiskit provides sophisticated functionality with operators: [The \"Operator Flow\" layer in Aqua](https://qiskit.org/documentation/apidoc/qiskit.aqua.operators.html). In this tutorial notebook we will get familiar with the main building blocks of the operator flow layer:\n",
    "\n",
    "1. State functions\n",
    "2. Operators and evolutions\n",
    "3. Measurements and expectations\n",
    "\n",
    "This tutorial assumes basic familiarity with qubits, quantum superposition and quantum circuits.\n",
    "\n",
    "There are a few important underlying mathematical concepts:\n",
    "\n",
    "* An n-qubit State function is a complex function over n binary variables, which we will often refer to as n-qubit binary strings. For example, the traditional quantum \u201czero state\u201d is a 1-qubit state function, with a definition of f(0) = 1 and f(1) = 0.\n",
    "* An n-qubit Operator is a linear function taking n-qubit state functions to n-qubit state functions. For example, the Pauli X Operator is defined by f(Zero) = One and f(One) = Zero. Equivalently, an Operator can be defined as a complex function over two n-qubit binary strings, and it is sometimes convenient to picture things this way. By this definition, our Pauli X can be defined by its typical matrix elements, f(0, 0) = 0, f(1, 0) = 1, f(0, 1) = 1, f(1, 1) = 0.\n",
    "* An n-qubit Measurement is a functional taking n-qubit State functions to complex values. For example, a Pauli Z Measurement can be defined by f(Zero) = 0 and f(One) = 1.\n",
    "\n",
    "The definitions of these concepts mostly follows the ones in the first two chapters of the book [\"The Theory of Quantum Information\" by John Watrous](https://cs.uwaterloo.ca/~watrous/TQI/), but don\x27t worry if you don\x27t get them at the first glance: This tutorial is all about getting intuition behind them and the structure of the operator flow layer."
  ],
  Cell.mk CellType.markdown [
    "First, let us import the necessary components:"
  ],
  Cell.mk CellType.code [
    "from qiskit import BasicAer, QuantumCircuit\n",
    "from qiskit.aqua.operators import *\n",
    "from qiskit.circuit import Parameter\n",
    "from qiskit.quantum_info import Pauli\n",
    "import numpy as np"
  ],
  Cell.mk CellType.markdown [
    "## State functions\n",
    "\n",
    "Let us start with a single qubit. As we know, a pure state of a qubit is, in general, described as a superposition of basis states $\\vert \\psi \\rangle = \\alpha \\vert 0\\rangle + \\beta \\vert 1 \\rangle$ with complex coefficients $\\alpha$ and $\\beta$. We can think of this superposition as some mathematical object which puts into correspondence the ket $\\vert 0\\rangle$ with $\\alpha$ and $\\vert 1\\rangle$ with $\\beta$. This is exactly what the state functions in Aqua are. For example the well known minus state $\\vert \\psi_\x7b-\x7d\\rangle=\\frac\x7b1\x7d\x7b\\sqrt\x7b2\x7d\x7d\\vert 0 \\rangle - \\frac\x7b1\x7d\x7b\\sqrt\x7b2\x7d\x7d\\vert 1\\rangle$ can be thought of as a function mapping the basis ket $\\vert 0\\rangle$ to $\\frac\x7b1\x7d\x7b\\sqrt\x7b2\x7d\x7d$ and the basis ket $\\vert 1\\rangle$ to $-\\frac\x7b1\x7d\x7b\\sqrt\x7b2\x7d\x7d$. Basis states themselves are particular cases of state functions, e.g. the basis state $\\vert 0\\rangle$ can be thought of as a function mapping the ket $\\vert 0\\rangle$ to the number $1$ and the ket $\\vert 1\\rangle$ to the number $0$.\n",
    "\n",
    "In Aqua, the class \x60StateFn\x60 can be used to create state functions. Let us create the 1-qubit state function corresponding to the state $\\vert \\psi_\x7b-\x7d\\rangle$"
  ],
  Cell.mk CellType.code [
    "amplitudes = [1, -1]\n",
    "normalization_coefficient = 1 / np.sqrt(2)\n",
    "psi_minus = StateFn(amplitudes, coeff=normalization_coefficient)"
  ],
  Cell.mk CellType.markdown [
    "To access the mapping represented by this state function we can use the function \x60.eval()\x60"
  ],
  Cell.mk CellType.code [
    "print(f\"The ket |0> is mapped to \x7bpsi_minus.eval(\x270\x27)\x7d\")\n",
    "print(f\"The ket |1> is mapped to \x7bpsi_minus.eval(\x271\x27)\x7d\")"
  ],
  Cell.mk CellType.markdown [
    "As you can see we have explicitly specified the normalization coefficient to keep the state normalized. Essentially the Aqua state functions can be thought of and treated as ket vectors, but keep in mind that they are a bit more general mathematical objects and do not impose normalization constraint. At the end of the day, when you create quantum circuits out of state functions and sample them the normalization will be taken care of internally, so you actually don\x27t need to explicitly specify the coefficient every time you create a state function (the default value is \x60coeff=1\x60)."
  ],
  Cell.mk CellType.markdown [
    "If we look at the type of the object \x60psi_minus\x60"
  ],
  Cell.mk CellType.code [
    "type(psi_minus)"
  ],
  Cell.mk CellType.markdown [
    "we can see that it is \x60VectorStateFn\x60. This is not much of a surprise, since we built the state function based on a vector of amplitudes. In how many ways can we create a state function? One way is obviously with a vector of complex amplitudes as done above. Another way is by specifying the mapping explicitly with a python dictionary"
  ],
  Cell.mk CellType.code [
    "mapping = \x7b\x270\x27: 1, \x271\x27: -1\x7d\n",
    "psi_minus_dict = StateFn(mapping, coeff=normalization_coefficient)\n",
    "type(psi_minus_dict)"
  ],
  Cell.mk CellType.markdown [
    "\x60DictStateFn\x60 objects provide an additional convenience where you can omit the zero amplitudes, e.g. the state $\\vert 1\\rangle$ can be initialized with \x60\x7b\x271\x27: 1\x7d\x60 instead of \x60\x7b\x270\x27: 0, \x271\x27: 1\x7d\x60.\n",
    "\n",
    "Yet another way to build a state function object is using a quantum circuit"
  ],
  Cell.mk CellType.code [
    "qc = QuantumCircuit(1)\n",
    "qc.h(0)\n",
    "qc.z(0)\n",
    "psi_minus_qc = StateFn(qc)\n",
    "type(psi_minus_qc)"
  ],
  Cell.mk CellType.markdown [
    "An object used to build a state function is called its _primitive_. The class \x60StateFn\x60 is a convenient way to create state function objects with various primitives, however the underlying classes \x60VectorStateFn\x60, \x60DictStateFn\x60, \x60CircuitStateFn\x60 etc. can be used directly as well, e.g. \x60DictStateFn(\x7b\x270\x27: 1, \x271\x27: -1\x7d)\x60. The full list of allowed primitives can be studied in the documentation. One important type of primitve is an Aqua operator, which we will cover briefly after we introduce operators and measurements."
  ],
  Cell.mk CellType.markdown [
    "To make the usage of state functions easier, Aqua provides the following frequently used 1-qubit state functions as pre-built objects\n",
    "\n",
    "* $\\vert 0 \\rangle \\rightarrow$ \x60Zero\x60\n",
    "* $\\vert 1 \\rangle \\rightarrow$ \x60One\x60\n",
    "* $\\frac\x7b1\x7d\x7b\\sqrt\x7b2\x7d\x7d (\\vert 0 \\rangle + \\vert 1 \\rangle) \\rightarrow$ \x60Plus\x60\n",
    "* $\\frac\x7b1\x7d\x7b\\sqrt\x7b2\x7d\x7d (\\vert 0 \\rangle - \\vert 1 \\rangle) \\rightarrow$ \x60Minus\x60\n",
    "\n",
    "E.g. if you need to use the minus state in your code, you can use \x60Minus\x60:"
  ],
  Cell.mk CellType.code [
    "print(f\"\x27Minus\x27 maps |0> to \x7bMinus.eval(\x270\x27)\x7d\")\n",
    "print(f\"\x27Minus\x27 maps |1> to \x7bMinus.eval(\x271\x27)\x7d\")"
  ],
  Cell.mk CellType.markdown [
    "Multi-qubit state functions can be created in a manner identical to one-qubit state functions. As an example let us create a state function object for the 2-qubit Bell state $\\vert \\Phi^\x7b+\x7d \\rangle = \\frac\x7b1\x7d\x7b\\sqrt\x7b2\x7d\x7d(\\vert 00 \\rangle + \\vert 11 \\rangle)$"
  ],
  Cell.mk CellType.code [
    "primitive = \x7b\x2700\x27: 1, \x2711\x27: 1\x7d\n",
    "coeff = 1 / np.sqrt(2)\n",
    "bell = StateFn(primitive, coeff)\n",
    "\n",
    "for basis in [\x2700\x27, \x2701\x27, \x2710\x27, \x2711\x27]:\n",
    "    print(f\"\x27bell\x27 maps |\x7bbasis\x7d> to \x7bbell.eval(basis)\x7d\")"
  ],
  Cell.mk CellType.markdown [
    "As you know there are a lot of quantum states that can be described as tensor products of one-qubit states. The Bell state we have created above is not a such state, however e.g. the 2-qubit uniform superposition state $\\frac\x7b1\x7d\x7b2\x7d(\\vert 00 \\rangle + \\vert 01 \\rangle + \\vert 10 \\rangle + \\vert 11 \\rangle) = \\frac\x7b1\x7d\x7b\\sqrt\x7b2\x7d\x7d(\\vert 0 \\rangle + \\vert 1 \\rangle) \\otimes \\frac\x7b1\x7d\x7b\\sqrt\x7b2\x7d\x7d(\\vert 0 \\rangle + \\vert 1 \\rangle)$ is. Instead of specifying 2-qubit amplitudes to create a state function, as we did for the Bell state, we can use the tensoring capability of state functions to create the uniform superposition state. Tensoring of state functions can be done with the \x60.tensor()\x60 function (\x60Plus.tensor(Plus)\x60) or the \x60^\x60 symbol (\x60Plus ^ Plus\x60). Tensoring can be used also to do tensor powers, i.e. the second operand of tensoring can be an integer instead of a state function  and this will mean the tensor power of the first operand. E.g. let us create a uniform superposition state for five qubits"
  ],
  Cell.mk CellType.code [
    "uniform = Plus ^ 5\n",
    "uniform.primitive.draw()"
  ],
  Cell.mk CellType.markdown [
    "We have described the introductory basics of Aqua state functions above. Of course they support much more sophisticated functionality which is not covered in this notebook. A few honorable mentions are the functions \x60sample()\x60 and \x60to_matrix()\x60 which we encourage the readers to investigate on their own."
  ],
  Cell.mk CellType.markdown [
    "## Operators and Evolutions\n",
    "\n",
    "### Operators\n",
    "Now as we can build state functions we can define operations to transform them. Aqua operators do exactly this. They can be created using a few different primitives as well. Let us define an operator which takes the $\\vert - \\rangle$ state to the basis state $\\vert 1\\rangle$. As you know we could accomplish this with a Hadamard gate if we were building a quantum circuit. Let us use such a circuit as a primitive to create an operator"
  ],
  Cell.mk CellType.code [
    "qc_hadamard = QuantumCircuit(1)\n",
    "qc_hadamard.h(0)\n",
    "op_hadamard = CircuitOp(qc_hadamard)"
  ],
  Cell.mk CellType.markdown [
    "To make the operator \x60op_hadamard\x60 act on the state \x60Minus\x60 we need to chain them together. The official term for this in Aqua is _composition_. The symbol \x60@\x60 can be used to compose the operator with the state function, or the \x60.compose()\x60 function: they are equivalent"
  ],
  Cell.mk CellType.code [
    "(op_hadamard @ Minus).eval().sample()"
  ],
  Cell.mk CellType.code [
    "op_hadamard.compose(Minus).eval().sample()"
  ],
  Cell.mk CellType.markdown [
    "If you check the type of the object \x60(op_hadamard @ Minus)\x60 you will see that it is \x60CircuitStateFn\x60. The pre-built state function \x60Minus\x60 is based on a circuit primitive and the composition of \x60op_hadamard\x60 with it is straightforward to handle -  the result is a state function with the concatenated circuit as its primitive. In practice you will often come across more complicated compositions where the result is not so straightforward to obtain. In such cases an object of type \x60ComposedOp\x60 will be created when you do a composition. The class \x60ComposedOp\x60 is designed to represent compositions without doing the underlying calculations to obtain the actual result of the composition. This is called lazy representation and it is done to defer heavy numerical calculations to a later stage where posssibly a quantum device will be used and numerical simulation not needed. The function \x60.eval()\x60 can be used to force the system to actually do the calculations and yield the final result. Lazy representation of various objects is ubiquitous in Aqua, \x60ComposedOp\x60 is just one example of it. We will see some other examples later in this tutorial. "
  ],
  Cell.mk CellType.markdown [
    "Linear operators are linear maps between finite dimensional vector spaces, and therefore have a matrix representation. For e.g. the Pauli $X$ operator has the following matrix representation $X(\\vert 0 \\rangle, \\vert 0 \\rangle) = 0$, $X(\\vert 1 \\rangle, \\vert 0 \\rangle) = 1$, $X(\\vert 0 \\rangle, \\vert 1 \\rangle) = 1$, $X(\\vert 1 \\rangle, \\vert 1 \\rangle) = 0$. We can define a corresponding operator based on the matrix representation "
  ],
  Cell.mk CellType.code [
    "matrix_x = np.array([[0, 1], [1, 0]])\n",
    "op_x = MatrixOp(matrix_x)"
  ],
  Cell.mk CellType.markdown [
    "We can see the action of \x60op_x\x60 by composing it with a state function as we did before for \x60op_hadamard\x60."
  ],
  Cell.mk CellType.code [
    "(op_x @ Zero).eval().sample()"
  ],
  Cell.mk CellType.code [
    "(op_x @ One).eval().sample()"
  ],
  Cell.mk CellType.markdown [
    "Pauli operators are an important class of operators that we routinely encounter in quantum computing. One particular reason for that is that the Pauli matrices (and their tensor products) form a matrix basis. Qiskit Terra provides implementations of Pauli gates, and we can define operators using Terra\x27s \x60Pauli\x60 module"
  ],
  Cell.mk CellType.code [
    "op_x_terra = PauliOp(Pauli(z=[False], x=[True]))\n",
    "print(repr(op_x_terra))"
  ],
  Cell.mk CellType.markdown [
    "In addition to the Pauli operators, there are a handful of other operators that are commonly used as building blocks for quantum applications. Aqua has a set of immutable \x60Operator\x60 instances for this purpose. These are the Pauli Operators (\x60X\x60, \x60Y\x60, \x60Z\x60, \x60I\x60), Clifford Operators (\x60CX\x60, \x60S\x60, \x60H\x60, \x60Swap\x60, \x60CZ\x60), and the $T$ Operator (\x60T\x60). We can convert between the different operator representations by using \x60.to_circuit_op()\x60, \x60.to_matrix_op()\x60, and \x60to_pauli_op()\x60 functions. These classes have additional methods too. Some very helpful ones are \x60add\x60, \x60mul\x60, \x60power\x60. We encourage the reader to explore these."
  ],
  Cell.mk CellType.markdown [
    "### Evolutions\n",
    "The idea of evolution is central to quantum mechanics. The most common evolution that we encounter is the *time* evolution, generated by the Hamiltonian of the system. Operating on the state function with $e^\x7b-iHt\x7d$, where $H$ is the Hamiltonian, gives the time evolved form of the state function. More generally the operator for an evolution generated by $U$ is $e^\x7b-iU\\theta\x7d$, where $\\theta$ is the evolution parameter. Let us now see an example of how we can create an operator for evolution in Aqua.\n",
    "We start with a simple two qubit Hamiltonian $H = XX + YY + ZZ$. This is a special case of the Heisenberg Hamiltonian, but for now we will call it the Heisenberg Hamiltonian."
  ],
  Cell.mk CellType.code [
    "hamiltonian = (X^X) + (Y^Y) + (Z^Z)\n",
    "print(hamiltonian)"
  ],
  Cell.mk CellType.markdown [
    "There is a quite a bit to unpack here. First notice the use of \x60^\x60. In Python \x60^\x60 is used as the bitwise XOR operator, however in Aqua, it has been overloaded to represent tensor products, as we have seen earlier for state functions. Note that you should always use parenthesis to indicate operator precedence, since built-in precedence of such operators in python will most likely not be what you are looking for (it is possible to overload the functionality of an operator, but not the precedence logic, so we have to stick with the built-in precedences). We also see a new class \x60SummedOp\x60, which is used to do lazy representation of operators formed by summing other operators. There are other classes to represent operators formed from other operators like \x60TensoredOp\x60 (for tensor products), \x60ComposedOp\x60 (composition), \x60ListOp\x60 (list concatenation). We encourage you to explore these. Now we will see the evolution operator formed from this Hamiltonian."
  ],
  Cell.mk CellType.code [
    "evolution_param = Parameter(\x27\u03b8\x27)\n",
    "evolution_op = (evolution_param * hamiltonian).exp_i()\n",
    "print(evolution_op)"
  ],
  Cell.mk CellType.markdown [
    "It might seem like we are just pretty printing an evolution operator, but convince ourselves that it is indeed what is happening under the hood, let us take a more detailed look at the evolution operator."
  ],
  Cell.mk CellType.code [
    "print(repr(evolution_op))"
  ],
  Cell.mk CellType.markdown [
    "We see a new class \x60EvolvedOp\x60. \x60EvolvedOp\x60 is a placeholder for an evolution algorithm for later conversion into an Operator that approximates the exponentiation of the generator. Why a placeholder, and not an immediate conversion? This has all to do with the lazy execution of operators. Also notice that though the Hamiltonian is a sum of tensor products of Pauli operators, we do not see \x60TensoredOp\x60 in the representation. This is because tensor products of Pauli operators are so ubiquitous, that the \x60PauliOp\x60 class has been designed to handle those as well, in addition to the single qubit example that we saw earlier. \n",
    "\n",
    "When it comes to actually representing evolutions with operators instead of the lazy representation by \x60EvolvedOp\x60, there are  a few methods to construct the approximations, like \x60PauliTrotterEvolution\x60, and \x60MatrixEvolution\x60, to convert any \x60EvolvedOp\x60 object into an actual sequence of operators. We will discuss them in greater detail in later tutorials. But in the meanwhile feel free to check them out."
  ],
  Cell.mk CellType.markdown [
    "## Measurements and Expectations\n",
    "\n",
    "### Measurements\n",
    "\n",
    "A Measurement is a functional that maps State functions to complex numbers. In Aqua, we think of a Measurement as the adjoint of a State function. For example say we want to measure $\\langle 0 \\vert 1 \\rangle$. We can think of this as the functional $\\vert 0 \\rangle_\x7bmeas\x7d()$, that accepts the State function $\\vert 1 \\rangle$, and maps it to a complex number, in this case $0$: $\\vert 0 \\rangle_\x7bmeas\x7d(\\vert 1 \\rangle) = \\langle 0 \\vert 1 \\rangle = 0$. Essentially, we are identifying $\\vert 0 \\rangle_\x7bmeas\x7d()$ with $\\langle 0 \\vert$, the adjoint of $\\vert 0 \\rangle$. Thus $\\langle 0 \\vert$ is interpreted as a Measurement in the language of Aqua."
  ],
  Cell.mk CellType.code [
    "print(f\"<0|: \x7bZero.adjoint()\x7d\")\n",
    "print(f\"<0|1>: \x7bZero.adjoint().eval(One)\x7d\")\n",
    "print(f\"<0|+>: \x7bZero.adjoint().eval(Plus)\x7d\")\n",
    "print(f\"<1|Z|+>: \x7b(One.adjoint() @ Z @ Plus).eval()\x7d\")"
  ],
  Cell.mk CellType.markdown [
    "In the first section of this notebook we saw a bunch of methods to create state functions and think of them as ket state vectors at the back of our mind. What if we work with a system which does not have a state described in terms of ket state vectors? Such are the systems which have state representation in terms of density matrix (or density operator). Aqua has a class \x60OperatorStateFn\x60 which allows the creation of state functions based on operators. Besides the fact that this class can be used to create state functions representing density operators, they have one important use case - measurements of observables. To measure the expectation value of some physical quantity (e.g. the hamiltonian) you need to build necessary measurement logic, which can be done just by creating an \x60OperatorStateFn\x60 object by using the operator of the observable as its primitive, and take the adjoint of the result (i.e. make it a measurement as described above). We will see the usage of \x60OperatorStateFn\x60 in this manner at the complete end-to-end example presented at the end of this notebook."
  ],
  Cell.mk CellType.markdown [
    "### Expectations\n",
    "\n",
    "\x60ExpectationBase\x60 and its subclasses enable the computation of expectation values of Observables. These are converters that replace \x60OperatorStateFn\x60 measurements with equivalent measurements (or approximations thereof) that can be actually computed on a quantum or classical hardware. "
  ],
  Cell.mk CellType.code [
    "hamiltonian_meas = StateFn(hamiltonian).adjoint()\n",
    "print(PauliExpectation().convert(hamiltonian_meas))"
  ],
  Cell.mk CellType.markdown [
    "In the above example \x60PauliExpectation\x60 is a subclass of \x60ExpectationBase\x60 that converts Pauli-basis Observables to a diagonal $\\\x7bZ, I\\\x7d^\x7b\\otimes n\x7d$ basis (computational basis) by appending circuit post-rotations to the measured State function. In the Heisenberg Hamiltonian only $ZZ$ is diagonal. To measure $X$ ($Y$) in the computational basis, we have to rotate the measurement by $H$ ($S^\\dagger H$). This is exactly what the \x60PauliExpectation\x60 class did. Let us look at another example to see another important feature of the \x60PauliExpectation\x60 class."
  ],
  Cell.mk CellType.code [
    "hamiltonian2 = (I^X) + (X^I)\n",
    "hamiltonian2_meas = StateFn(hamiltonian2).adjoint()\n",
    "print(PauliExpectation().convert(hamiltonian2_meas))"
  ],
  Cell.mk CellType.markdown [
    "In the above example, the two Pauli strings $IX$, and $XI$ commute, and can therefore be measured simultaneously. This reduces the number of circuits required to measure the Hamiltonian. The \x60PauliExpectation\x60 class by default groups commuting Pauli strings into an \x60AbelianSummedOp\x60 to facilitate the simultaneous measurement. This feature can be turned off by setting \x60group_paulis\x60 to \x60False\x60, when instantiating a \x60PauliExpectation\x60 class. The other \x60ExpectationBase\x60 subclasses are  \x60AerPauliExpectation\x60, \x60MatrixExpectation\x60, and \x60CVaRExpectation\x60. There is also a \x60ExpectationFactory\x60 for conveniently selecting an \x60ExpectationBase\x60 subclass. We encourage you to check them out."
  ],
  Cell.mk CellType.markdown [
    "## Example\n",
    "\n",
    "Now that we have seen the building blocks of Aqua\x27s Operator flow, let us see a complete example to get a feel of what we can do with it. We will attempt a Trotter-Suzuki expansion of the Heisenberg Hamiltonian, and calculate the associated energies."
  ],
  Cell.mk CellType.code [
    "# Heisenberg Hamiltonian\n",
    "hamiltonian = (X^X) + (Y^Y) + (Z^Z)\n",
    "\n",
    "# Initial State -\x2d Bell state Phi+\n",
    "bell = CX @ (Plus^Zero)\n",
    "\n",
    "# Time evolution operator\n",
    "evolution_param = Parameter(\"\u03b8\")\n",
    "evolution_op = (evolution_param * hamiltonian).exp_i()\n",
    "\n",
    "# Measurement of the Hamiltonian with the time evolved state\n",
    "evo_and_meas = StateFn(hamiltonian).adjoint() @ evolution_op @ bell\n",
    "\n",
    "# Trotterization\n",
    "trotterized_op = PauliTrotterEvolution(trotter_mode=Suzuki()).convert(evo_and_meas)\n",
    "\n",
    "# Diagonalize the measurement\n",
    "diagonalized_meas_op = PauliExpectation().convert(trotterized_op)\n",
    "\n",
    "# Measure energies by Trotterization an sampling\n",
    "time_array = list(range(10))\n",
    "expectations = diagonalized_meas_op.bind_parameters(\x7bevolution_param: time_array\x7d)\n",
    "sampler = CircuitSampler(backend=BasicAer.get_backend(\"qasm_simulator\"))\n",
    "sampled_expectations = sampler.convert(expectations)\n",
    "sampled_energies = sampled_expectations.eval()\n",
    "print(f\"Sampled energies after Trotterization:\\n \x7bnp.real(sampled_energies)\x7d\")"
  ],
  Cell.mk CellType.code [
    "import qiskit.tools.jupyter\n",
    "%qiskit_version_table\n",
    "%qiskit_copyright"
  ]]

/-! ## Notebook analysis

Functions reading the embedded cell sequences: selecting the code cells, scanning
their source lines for control flow, assignments and imports. -/

/-- Is this cell a code cell? -/
def isCodeCell (c : Cell) : Bool := c.cellType == CellType.code

/-- The code cells of a notebook, in order. -/
def codeCells (nb : List Cell) : List Cell := nb.filter isCodeCell

/-- All source lines of all code cells of a notebook, in order. -/
def codeLines (nb : List Cell) : List String := (codeCells nb).flatMap Cell.source

/-- Drop leading space characters. -/
def dropSpaces : List Char → List Char
  | ' ' :: cs => dropSpaces cs
  | cs => cs

/-- Does the first list occur as a prefix of the second? -/
def isPrefixOfChars : List Char → List Char → Bool
  | [], _ => true
  | _ :: _, [] => false
  | c :: cs, d :: ds => c == d && isPrefixOfChars cs ds

/-- Does the pattern occur as a contiguous sublist? -/
def containsSub (pat : List Char) : List Char → Bool
  | [] => pat.isEmpty
  | c :: cs => isPrefixOfChars pat (c :: cs) || containsSub pat cs

/-- Does the line, after stripping its indentation, start with the given prefix? -/
def lineStartsWith (pre line : String) : Bool :=
  isPrefixOfChars pre.data (dropSpaces line.data)

/-- Does the line contain the given pattern as a substring? -/
def lineContains (pat line : String) : Bool := containsSub pat.data line.data

/-- A Python source line opening a loop statement. -/
def isLoopLine (line : String) : Bool :=
  lineStartsWith "for " line || lineStartsWith "while " line

/-- A Python source line opening a branch (conditional or exception-driven). -/
def isBranchLine (line : String) : Bool :=
  lineStartsWith "if " line || lineStartsWith "elif " line || lineStartsWith "else" line ||
  lineStartsWith "try" line || lineStartsWith "except" line || lineStartsWith "finally" line ||
  lineStartsWith "match " line || lineStartsWith "with " line

/-- A Python source line introducing a function or class definition. -/
def isDefLine (line : String) : Bool :=
  lineStartsWith "def " line || lineStartsWith "class " line || lineContains "lambda" line

/-- A Python source line that handles or raises errors, or branches on a condition. -/
def isErrorHandlingLine (line : String) : Bool :=
  lineStartsWith "try" line || lineStartsWith "except" line || lineStartsWith "finally" line ||
  lineStartsWith "raise" line || lineStartsWith "if " line || lineStartsWith "elif " line ||
  lineStartsWith "else" line || lineContains "try:" line || lineContains "except" line

/-- Characters allowed in a Python identifier. -/
def isIdentChar (c : Char) : Bool := c.isAlphanum || c == '_'

/-- The longest identifier prefix of a character list. -/
def takeIdent : List Char → List Char
  | [] => []
  | c :: cs => if isIdentChar c then c :: takeIdent cs else []

/-- The longest dotted-module-name prefix of a character list. -/
def takeModuleIdent : List Char → List Char
  | [] => []
  | c :: cs => if isIdentChar c || c == '.' then c :: takeModuleIdent cs else []

/-- The target of a top-level Python assignment statement `name = expr`, if the line
is one (a line starting with an identifier directly followed by a single `=`). -/
def assignTarget (line : String) : Option String :=
  match line.data with
  | [] => none
  | c :: cs =>
    if isIdentChar c then
      let ident := takeIdent (c :: cs)
      match dropSpaces ((c :: cs).drop ident.length) with
      | '=' :: ' ' :: _ => some (String.mk ident)
      | _ => none
    else none

/-- The variable bound by a Python `for name in ...:` statement, if the line is one. -/
def loopTarget (line : String) : Option String :=
  let cs := dropSpaces line.data
  if isPrefixOfChars ("for ").data cs then some (String.mk (takeIdent (cs.drop 4)))
  else none

/-- Every name the notebook's code itself binds: assignment targets and loop variables. -/
def assignedNames (nb : List Cell) : List String :=
  (codeLines nb).filterMap assignTarget ++ (codeLines nb).filterMap loopTarget

/-- The module named by a Python `import` or `from ... import` line, if the line is one. -/
def importedModule (line : String) : Option String :=
  let cs := dropSpaces line.data
  if isPrefixOfChars ("from ").data cs then
    some (String.mk (takeModuleIdent (dropSpaces (cs.drop 5))))
  else if isPrefixOfChars ("import ").data cs then
    some (String.mk (takeModuleIdent (dropSpaces (cs.drop 7))))
  else none

/-- All modules imported by the notebook's code cells, in order. -/
def importedModules (nb : List Cell) : List String :=
  (codeLines nb).filterMap importedModule

/-- A module of the external quantum-computing library (qiskit and its subpackages)
or of the numerical package (numpy). -/
def isAllowedModule (m : String) : Bool :=
  m == "numpy" || isPrefixOfChars ("qiskit").data m.data

/-- Source fragments that would indicate file, network or other persistent-state access. -/
def ioTokens : List String :=
  ["open(", "socket", "urllib", "requests", "http", "pickle", "shutil",
   "subprocess", ".write(", ".read(", "os.", "sys.", "%store", "to_file", "savefig"]

/-- Call fragments of every operation the notebook demonstrates: state-function
construction, operator construction, evaluation, sampling, adjoint, composition,
tensoring (the infix ^), Trotterized evolution, expectation conversion, sampling
on a backend. -/
def demonstratedCalls : List String :=
  ["StateFn(", "CircuitOp(", "MatrixOp(", "PauliOp(", ".eval(", ".sample()",
   ".adjoint()", ".compose(", ".exp_i()", "PauliTrotterEvolution(", "PauliExpectation(",
   "CircuitSampler(", ".convert(", ".bind_parameters(", "@", "^"]

/-- Names owned by the imported libraries that the notebook calls (classes, factory
functions and the pre-built state functions and operators of the operator-flow layer). -/
def libraryNames : List String :=
  ["StateFn", "CircuitOp", "MatrixOp", "PauliOp", "PauliTrotterEvolution",
   "PauliExpectation", "CircuitSampler", "Suzuki", "QuantumCircuit", "Parameter",
   "Pauli", "BasicAer", "Zero", "One", "Plus", "Minus", "X", "Y", "Z", "I", "CX"]

/-- The one looping source line both notebooks contain (in the Bell-state cell). -/
def forBasisLine : String := "for basis in [\x2700\x27, \x2701\x27, \x2710\x27, \x2711\x27]:\n"
/-! ## Exact-arithmetic model of the demonstrated operator-flow semantics

The notebook only calls the external library `qiskit.aqua.operators`, whose code is
not part of this repository; the definitions in this namespace are therefore modelled
from the spec (its glossary of state functions, operators and measurements) and from
the semantics the notebook itself documents. Every amplitude the notebook produces
lies in the ring of dyadic multiples of 1 and √2, so the model computes exactly. -/

namespace Aqua

/-- Modelled from the spec: the scalars needed for the notebook's amplitudes, exact
dyadic rationals num / 2^exp, kept normalized (num odd unless exp = 0). -/
structure Dy where
  num : ℤ
  exp : ℕ
deriving DecidableEq, Repr

/-- Normalize a dyadic rational: cancel factors of two between numerator and exponent. -/
def dyNorm : ℤ → ℕ → Dy
  | m, 0 => ⟨m, 0⟩
  | m, k + 1 => if m.emod 2 = 0 then dyNorm (m.ediv 2) k else ⟨m, k + 1⟩

/-- Addition of dyadic rationals. -/
def Dy.add (x y : Dy) : Dy :=
  let k := max x.exp y.exp
  dyNorm (x.num * 2 ^ (k - x.exp) + y.num * 2 ^ (k - y.exp)) k

/-- Multiplication of dyadic rationals. -/
def Dy.mul (x y : Dy) : Dy := dyNorm (x.num * y.num) (x.exp + y.exp)

/-- Negation of a dyadic rational. -/
def Dy.neg (x : Dy) : Dy := ⟨-x.num, x.exp⟩

/-- Subtraction of dyadic rationals. -/
def Dy.sub (x y : Dy) : Dy := x.add y.neg

/-- Division of dyadic rationals; exact whenever the quotient is again dyadic, which
covers every division the notebook performs (its sampled states have total weight 1). -/
def Dy.div (x y : Dy) : Dy := dyNorm ((x.num * 2 ^ y.exp).ediv y.num) x.exp

/-- The zero dyadic rational. -/
def Dy.zero : Dy := ⟨0, 0⟩

/-- Modelled from the spec: the number field of the notebook's amplitudes, ℚ₂[√2]
represented as a + b·√2 with dyadic a, b (all amplitudes shown are real, so the
complex parts printed by the library are identically zero and are not modelled). -/
structure Q2 where
  a : Dy
  b : Dy
deriving DecidableEq, Repr

/-- Addition on Q2, componentwise. -/
def Q2.add (x y : Q2) : Q2 := ⟨x.a.add y.a, x.b.add y.b⟩

/-- Multiplication on Q2: (a + b√2)(c + d√2) = (ac + 2bd) + (ad + bc)√2. -/
def Q2.mul (x y : Q2) : Q2 :=
  ⟨(x.a.mul y.a).add ((x.b.mul y.b).mul ⟨2, 0⟩), (x.a.mul y.b).add (x.b.mul y.a)⟩

/-- Negation on Q2. -/
def Q2.neg (x : Q2) : Q2 := ⟨x.a.neg, x.b.neg⟩

instance : Add Q2 := ⟨Q2.add⟩
instance : Mul Q2 := ⟨Q2.mul⟩
instance : Neg Q2 := ⟨Q2.neg⟩
instance : OfNat Q2 0 := ⟨⟨Dy.zero, Dy.zero⟩⟩
instance : OfNat Q2 1 := ⟨⟨⟨1, 0⟩, Dy.zero⟩⟩

/-- Multiplicative inverse on Q2: 1/(a + b√2) = (a - b√2)/(a² - 2b²); returns 0 at 0. -/
def Q2.inv (x : Q2) : Q2 :=
  let d := (x.a.mul x.a).sub ((x.b.mul x.b).mul ⟨2, 0⟩)
  if d = Dy.zero then 0 else ⟨x.a.div d, x.b.neg.div d⟩

/-- The amplitude 1/√2 = (1/2)·√2, the normalization coefficient the notebook uses. -/
def invSqrt2 : Q2 := ⟨Dy.zero, ⟨1, 1⟩⟩

/-- Modelled from the spec: a DictStateFn, a state function whose primitive is an
explicit mapping from basis labels to amplitudes, together with a scalar coefficient;
keys omitted from the primitive stand for zero amplitudes. -/
structure DictStateFn where
  primitive : List (String × Q2)
  coeff : Q2
deriving DecidableEq, Repr

/-- Look an amplitude up in a dict primitive; an absent key is a zero amplitude. -/
def lookupAmp : List (String × Q2) → String → Q2
  | [], _ => 0
  | (k, v) :: rest, label => if k == label then v else lookupAmp rest label

/-- Modelled from the spec: "a mapping from measurement-basis labels to complex
amplitudes" — evaluating a DictStateFn at a basis label returns the primitive's
amplitude there scaled by the coefficient. -/
def DictStateFn.eval (s : DictStateFn) (label : String) : Q2 :=
  s.coeff * lookupAmp s.primitive label

/-- Modelled from the spec: a VectorStateFn, a state function whose primitive is a
vector of amplitudes indexed by the basis labels read as binary numbers, together
with a scalar coefficient. -/
structure VectorStateFn where
  primitive : List Q2
  coeff : Q2
deriving DecidableEq, Repr

/-- Read a basis label as a binary number. -/
def binToNat (cs : List Char) : Nat :=
  cs.foldl (fun n c => 2 * n + (if c == '1' then 1 else 0)) 0

/-- Evaluating a VectorStateFn at a basis label returns the indexed amplitude of the
primitive scaled by the coefficient. -/
def VectorStateFn.eval (s : VectorStateFn) (label : String) : Q2 :=
  s.coeff * s.primitive.getD (binToNat label.data) 0

/-- The state function psi_minus the notebook constructs: StateFn([1, -1], coeff=1/√2). -/
def psi_minus : VectorStateFn := ⟨[1, -1], invSqrt2⟩

/-- The Bell state function the notebook constructs: StateFn({00: 1, 11: 1}, 1/√2). -/
def bell : DictStateFn := ⟨[("00", 1), ("11", 1)], invSqrt2⟩

/-- The n-qubit basis labels in binary order. -/
def labels : Nat → List String
  | 0 => [""]
  | n + 1 => (labels n).map (fun s => "0" ++ s) ++ (labels n).map (fun s => "1" ++ s)

/-- Modelled from the spec: the pre-built state function Zero = |0⟩, as its amplitude
vector over the 1-qubit basis. -/
def Zero : List Q2 := [1, 0]

/-- Modelled from the spec: the pre-built state function One = |1⟩. -/
def One : List Q2 := [0, 1]

/-- Modelled from the spec: the pre-built state function Plus = (|0⟩ + |1⟩)/√2. -/
def Plus : List Q2 := [invSqrt2, invSqrt2]

/-- Modelled from the spec: the pre-built state function Minus = (|0⟩ - |1⟩)/√2. -/
def Minus : List Q2 := [invSqrt2, -invSqrt2]

/-- Dot product of two real amplitude vectors (conjugation is trivial here). -/
def dot : List Q2 → List Q2 → Q2
  | x :: xs, y :: ys => x * y + dot xs ys
  | _, _ => 0

/-- Apply a matrix to an amplitude vector. -/
def matVec (m : List (List Q2)) (v : List Q2) : List Q2 :=
  m.map (fun row => dot row v)

/-- Modelled from the spec: the CircuitOp op_hadamard the notebook builds from a
one-gate Hadamard circuit, as its matrix (1/√2)[[1, 1], [1, -1]]. -/
def op_hadamard : List (List Q2) := [[invSqrt2, invSqrt2], [invSqrt2, -invSqrt2]]

/-- The MatrixOp op_x the notebook builds from the matrix [[0, 1], [1, 0]]. -/
def op_x : List (List Q2) := [[0, 1], [1, 0]]

/-- Modelled from the spec: the pre-built Pauli Z operator, the matrix [[1, 0], [0, -1]]. -/
def Z : List (List Q2) := [[1, 0], [0, -1]]

/-- Modelled from the spec: composing an operator with a state function applies the
operator's linear map to the state's amplitude vector. -/
def compose (m : List (List Q2)) (v : List Q2) : List Q2 := matVec m v

/-- Modelled from the spec: the library's infix @ on operators and state functions
delegates to compose — "they are equivalent". -/
def matmul (m : List (List Q2)) (v : List Q2) : List Q2 := compose m v

/-- Modelled from the spec: "a Measurement is a functional mapping state functions to
complex expectation values" — here represented by the bra vector it pairs against. -/
structure Measurement where
  bra : List Q2
deriving DecidableEq, Repr

/-- Modelled from the spec: the adjoint of a state function is the measurement that
pairs it with other states (all amplitudes demonstrated are real). -/
def adjoint (v : List Q2) : Measurement := ⟨v⟩

/-- Evaluating a measurement on a state function takes their inner product. -/
def Measurement.eval (m : Measurement) (v : List Q2) : Q2 := dot m.bra v

/-- The inner product ⟨u|v⟩ of two real amplitude vectors. -/
def innerProd (u v : List Q2) : Q2 := dot u v

/-- Total weight of an amplitude vector: the sum of its squared amplitudes. -/
def totalWeight : List Q2 → Q2
  | [] => 0
  | x :: xs => x * x + totalWeight xs

/-- Modelled from the spec: sampling a state function yields each basis label with
probability equal to its squared amplitude divided by the total weight, keeping only
the labels of nonzero amplitude (rendered by the notebook as dicts such as 1 ↦ 1.0). -/
def sample (n : Nat) (v : List Q2) : List (String × Q2) :=
  ((labels n).zip v).filterMap fun p =>
    if p.2 = 0 then none else some (p.1, p.2 * p.2 * Q2.inv (totalWeight v))

end Aqua
/-! ## The claims -/

/-- C1 counterexample: the two notebook files are not equal as sequences of cells —
they do not even have the same number of cells, and already at cell position 2
(their import cells) their contents differ. -/
theorem C1_counterexample_notebooks_not_equal :
    part000Cells.length = 32 ∧ tutorialCells.length = 54 ∧
    part000Cells[2]? ≠ tutorialCells[2]? := by
  refine ⟨rfl, rfl, by decide⟩

/-- C1 (amended): the repository does not contain one notebook duplicated under two
paths — the two files are unequal as sequences of markdown and code cells, the copy
under src/unnamed having 32 cells and the ipynb under src/tutorials 54. -/
theorem C1_files_not_equal_as_cell_sequences :
    part000Cells ≠ tutorialCells ∧
    part000Cells.length = 32 ∧ tutorialCells.length = 54 := by
  refine ⟨fun h => ?_, rfl, rfl⟩
  have hlen : part000Cells.length = tutorialCells.length := congrArg List.length h
  have h32 : part000Cells.length = 32 := rfl
  have h54 : tutorialCells.length = 54 := rfl
  rw [h32, h54] at hlen
  exact absurd hlen (by decide)

/-- C2 counterexample: not every code cell is straight-line — the Bell-state cell of
both copies of the notebook contains a for loop over the four 2-qubit basis labels. -/
theorem C2_counterexample_for_loop_exists :
    forBasisLine ∈ codeLines part000Cells ∧
    forBasisLine ∈ codeLines tutorialCells ∧
    isLoopLine forBasisLine = true := by
  refine ⟨by decide, by decide, by decide⟩

/-- C2 (amended): every code cell of both copies is a straight-line sequence of
statements with no branch and no function or class definition; the single exception
to loop-freedom is one for-loop over the four 2-qubit basis labels, occurring on
exactly one source line of each copy. -/
theorem C2_straight_line_except_one_loop :
    ((codeLines part000Cells).all (fun l => !isBranchLine l && !isDefLine l) = true) ∧
    ((codeLines tutorialCells).all (fun l => !isBranchLine l && !isDefLine l) = true) ∧
    (codeLines part000Cells).filter isLoopLine = [forBasisLine] ∧
    (codeLines tutorialCells).filter isLoopLine = [forBasisLine] := by
  refine ⟨by decide, by decide, by decide, by decide⟩

/-- C3: every operation the notebook demonstrates occurs in its code as a call into
the imported library's interface: each demonstrated call fragment appears in the
tutorial's code cells, none of the called library names is ever re-bound by the
notebook's own assignments or loops, and no code cell defines any function or class,
so nothing is reimplemented locally. -/
theorem C3_demonstrated_ops_are_library_calls :
    (demonstratedCalls.all
      (fun p => (codeLines tutorialCells).any (fun l => lineContains p l)) = true) ∧
    (libraryNames.all (fun n =>
      !((assignedNames tutorialCells).contains n) &&
      !((assignedNames part000Cells).contains n)) = true) ∧
    ((codeLines tutorialCells).all (fun l => !isDefLine l) = true) ∧
    ((codeLines part000Cells).all (fun l => !isDefLine l) = true) := by
  refine ⟨by decide, by decide, by decide, by decide⟩

/-- C4: no code cell of either copy of the notebook contains any error handling —
no try/except/finally, no raise, and no conditional branch that could check for an
error — so any failure raised by the external library during cell execution has no
handler in the notebook to catch it. -/
theorem C4_no_error_handling :
    ((codeLines part000Cells).all (fun l => !isErrorHandlingLine l) = true) ∧
    ((codeLines tutorialCells).all (fun l => !isErrorHandlingLine l) = true) := by
  refine ⟨by decide, by decide⟩

/-- C5: the constructed state functions are the mappings from basis labels to
amplitudes given by their primitives scaled by their coefficients: psi_minus maps
label 0 to 1/√2 and label 1 to -1/√2, and bell maps 00 and 11 to 1/√2 and the absent
labels 01 and 10 to 0; in general, evaluation is the coefficient times the primitive's
amplitude at the label. -/
theorem C5_statefn_eval_is_scaled_primitive :
    Aqua.psi_minus.eval "0" = Aqua.invSqrt2 ∧
    Aqua.psi_minus.eval "1" = -Aqua.invSqrt2 ∧
    Aqua.bell.eval "00" = Aqua.invSqrt2 ∧
    Aqua.bell.eval "11" = Aqua.invSqrt2 ∧
    Aqua.bell.eval "01" = 0 ∧
    Aqua.bell.eval "10" = 0 ∧
    (∀ p c l, (Aqua.VectorStateFn.mk p c).eval l = c * p.getD (Aqua.binToNat l.data) 0) ∧
    (∀ p c l, (Aqua.DictStateFn.mk p c).eval l = c * Aqua.lookupAmp p l) := by
  refine ⟨by decide, by decide, by decide, by decide, by decide, by decide,
    fun _ _ _ => rfl, fun _ _ _ => rfl⟩

/-- C6: the adjoint of a state function is a measurement mapping state functions to
values: ⟨0| evaluated on |1⟩ gives 0, on |+⟩ gives 1/√2, and ⟨1| composed with Z and
|+⟩ evaluates to -1/√2 — in each case exactly the corresponding inner product. -/
theorem C6_adjoint_measurement_inner_products :
    (Aqua.adjoint Aqua.Zero).eval Aqua.One = 0 ∧
    (Aqua.adjoint Aqua.Zero).eval Aqua.Plus = Aqua.invSqrt2 ∧
    (Aqua.adjoint Aqua.One).eval (Aqua.matmul Aqua.Z Aqua.Plus) = -Aqua.invSqrt2 ∧
    (Aqua.adjoint Aqua.Zero).eval Aqua.One = Aqua.innerProd Aqua.Zero Aqua.One ∧
    (Aqua.adjoint Aqua.Zero).eval Aqua.Plus = Aqua.innerProd Aqua.Zero Aqua.Plus ∧
    (Aqua.adjoint Aqua.One).eval (Aqua.matmul Aqua.Z Aqua.Plus) =
      Aqua.innerProd Aqua.One (Aqua.matVec Aqua.Z Aqua.Plus) := by
  refine ⟨by decide, by decide, by decide, by decide, by decide, by decide⟩

/-- C7: every import in both copies of the notebook is from qiskit (or one of its
subpackages) or numpy — the import lists are exactly as embedded — and no code line
of either copy contains any token of file, network or persistent-state access. -/
theorem C7_imports_only_qiskit_numpy_no_io :
    importedModules tutorialCells =
      ["qiskit", "qiskit.aqua.operators", "qiskit.circuit",
       "qiskit.quantum_info", "numpy", "qiskit.tools.jupyter"] ∧
    importedModules part000Cells =
      ["qiskit.aqua.operators", "qiskit", "qiskit.circuit", "numpy"] ∧
    ((importedModules tutorialCells ++ importedModules part000Cells).all
      isAllowedModule = true) ∧
    (ioTokens.all (fun t =>
      !((codeLines tutorialCells).any (fun l => lineContains t l)) &&
      !((codeLines part000Cells).any (fun l => lineContains t l))) = true) := by
  refine ⟨by decide, by decide, by decide, by decide⟩

/-- C8: for the operator op_hadamard and the state function Minus, the infix @ and
the compose method denote the same state function — @ delegates to compose for all
arguments — and evaluating and sampling either yields the distribution 1 ↦ 1.0. -/
theorem C8_matmul_equals_compose_on_minus :
    (∀ m v, Aqua.matmul m v = Aqua.compose m v) ∧
    Aqua.matmul Aqua.op_hadamard Aqua.Minus = Aqua.compose Aqua.op_hadamard Aqua.Minus ∧
    Aqua.sample 1 (Aqua.matmul Aqua.op_hadamard Aqua.Minus) = [("1", 1)] ∧
    Aqua.sample 1 (Aqua.compose Aqua.op_hadamard Aqua.Minus) = [("1", 1)] := by
  refine ⟨fun _ _ => rfl, rfl, by decide, by decide⟩

/-- C9: evaluation of the dict-primitive state function bell is total on the 2-qubit
basis labels: at the labels 01 and 10, absent from its primitive, it returns the
amplitude 0 rather than failing, and in general any label whose primitive amplitude
is zero (in particular any omitted key) evaluates to 0. -/
theorem C9_dict_eval_total_absent_keys_zero :
    Aqua.bell.eval "01" = 0 ∧
    Aqua.bell.eval "10" = 0 ∧
    Aqua.labels 2 = ["00", "01", "10", "11"] ∧
    (∀ l, Aqua.lookupAmp Aqua.bell.primitive l = 0 → Aqua.bell.eval l = 0) := by
  refine ⟨by decide, by decide, by decide, fun l h => ?_⟩
  have he : Aqua.bell.eval l = Aqua.bell.coeff * Aqua.lookupAmp Aqua.bell.primitive l := rfl
  rw [he, h]
  decide

/-- C9 witness: the label 01 is absent from bell's primitive (its looked-up amplitude
is 0) and the theorem instantiated there yields bell.eval 01 = 0. -/
theorem C9_dict_eval_witness :
    Aqua.lookupAmp Aqua.bell.primitive "01" = 0 ∧ Aqua.bell.eval "01" = 0 :=
  ⟨by decide, C9_dict_eval_total_absent_keys_zero.2.2.2 "01" (by decide)⟩

/-- C10: the matrix operator op_x swaps the basis states — sampling op_x @ Zero gives
1 ↦ 1.0 and sampling op_x @ One gives 0 ↦ 1.0 — and composing op_x with itself acts
as the identity on Zero and One, so op_x is an involution on the basis states. -/
theorem C10_op_x_swaps_and_is_involution :
    Aqua.sample 1 (Aqua.matmul Aqua.op_x Aqua.Zero) = [("1", 1)] ∧
    Aqua.sample 1 (Aqua.matmul Aqua.op_x Aqua.One) = [("0", 1)] ∧
    Aqua.compose Aqua.op_x (Aqua.compose Aqua.op_x Aqua.Zero) = Aqua.Zero ∧
    Aqua.compose Aqua.op_x (Aqua.compose Aqua.op_x Aqua.One) = Aqua.One := by
  refine ⟨by decide, by decide, by decide, by decide⟩
